import Mathlib

/-!
Shallow embedding of the Figma AI rotation proxy server (`server.js`, the
variant that manages the Replicate credential server-side and exposes the
Aleto reset-key validation endpoint).

The server is three Express handlers plus a catch-all:
  * `GET /`                     — static health-check JSON
  * `POST /predictions`         — forwards the JSON body to the Replicate API
  * `GET /predictions/:id`      — forwards a status query to the Replicate API
  * `POST /validate-reset-key`  — looks the body's `resetKey` up in a static table
  * anything else               — 404 with the fixed route list

JSON values are modelled by an inductive `Json`; the outbound `fetch` is
modelled by an oracle `FetchRequest → FetchOutcome` passed to the handlers,
and every handler also returns the list of outbound requests it issued, so
that "no network call" / "exactly one call, no retry" are statable.
-/

/-- JSON values as produced by `express.json()` / `response.json()`.
Numbers are modelled as integers (every numeric literal in the server and
its table is an integer). Objects are ordered field lists, matching the
insertion order JavaScript preserves for string keys. -/
inductive Json where
  | null : Json
  | bool (b : Bool) : Json
  | num (n : Int) : Json
  | str (s : String) : Json
  | arr (elems : List Json) : Json
  | obj (fields : List (String × Json)) : Json

/-- Field lookup on a JSON value: `v.someField` / destructuring in JS.
Only objects have fields; on a hit the first binding wins (express's JSON
parser keeps the last duplicate, but the server never receives duplicate
keys in the modelled domain). -/
def Json.getField : Json → String → Option Json
  | .obj fields, k => (fields.find? (fun p => p.1 == k)).map (fun p => p.2)
  | _, _ => none

/-- Whether a JSON value is `null` (`result` being JSON `null` is the one
parsed body on which the handlers' success-path property reads throw). -/
def Json.isNull : Json → Bool
  | .null => true
  | _ => false

/-- JavaScript truthiness of a JSON value (`if (!resetKey)`):
`null`, `false`, `0` and `""` are falsy, everything else is truthy. -/
def Json.jsTruthy : Json → Bool
  | .null => false
  | .bool b => b
  | .num n => n != 0
  | .str s => s != ""
  | .arr _ => true
  | .obj _ => true

mutual

/-- JavaScript `ToString` of a JSON value, as applied by a computed property
access `o[k]` when `k` is not already a string: numbers print in decimal,
booleans as `true`/`false`, arrays join their elements with commas
(`null` elements print as the empty string), plain objects print as
`[object Object]`. -/
def Json.jsToString : Json → String
  | .null => "null"
  | .bool b => cond b "true" "false"
  | .num n => toString n
  | .str s => s
  | .arr elems => jsArrayToString elems
  | .obj _ => "[object Object]"

/-- `Array.prototype.toString`: elements joined by commas. -/
def jsArrayToString : List Json → String
  | [] => ""
  | [x] => jsArrayItemToString x
  | x :: y :: rest => jsArrayItemToString x ++ "," ++ jsArrayToString (y :: rest)

/-- An element inside `Array.prototype.join`: `null` becomes the empty
string, everything else its JavaScript string conversion. -/
def jsArrayItemToString : Json → String
  | .null => ""
  | .bool b => cond b "true" "false"
  | .num n => toString n
  | .str s => s
  | .arr elems => jsArrayToString elems
  | .obj _ => "[object Object]"

end

/-- Lower-case hexadecimal digit. -/
def hexDigit (n : Nat) : Char :=
  if n < 10 then Char.ofNat (48 + n) else Char.ofNat (87 + n)

/-- `JSON.stringify` escaping of one character inside a string literal. -/
def jsonEscapeChar (c : Char) : String :=
  if c = '"' then "\\\""
  else if c = '\\' then "\\\\"
  else if c = '\x08' then "\\b"
  else if c = '\x0c' then "\\f"
  else if c = '\n' then "\\n"
  else if c = '\r' then "\\r"
  else if c = '\t' then "\\t"
  else if c.toNat < 32 then
    "\\u00" ++ String.singleton (hexDigit (c.toNat / 16)) ++ String.singleton (hexDigit (c.toNat % 16))
  else String.singleton c

/-- `JSON.stringify` of a string: quoted and escaped. -/
def jsonQuote (s : String) : String :=
  "\"" ++ String.join (s.data.map jsonEscapeChar) ++ "\""

mutual

/-- `JSON.stringify`, as applied to the request body before it is sent to
the upstream (`body: JSON.stringify(req.body)`). -/
def Json.stringify : Json → String
  | .null => "null"
  | .bool b => cond b "true" "false"
  | .num n => toString n
  | .str s => jsonQuote s
  | .arr elems => "[" ++ stringifyElems elems ++ "]"
  | .obj fields => "\x7b" ++ stringifyMembers fields ++ "\x7d"

/-- Array elements of `JSON.stringify`, comma separated. -/
def stringifyElems : List Json → String
  | [] => ""
  | [x] => Json.stringify x
  | x :: y :: rest => Json.stringify x ++ "," ++ stringifyElems (y :: rest)

/-- Object members of `JSON.stringify`, comma separated `"key":value` pairs. -/
def stringifyMembers : List (String × Json) → String
  | [] => ""
  | [(k, v)] => jsonQuote k ++ ":" ++ Json.stringify v
  | (k, v) :: m :: rest => jsonQuote k ++ ":" ++ Json.stringify v ++ "," ++ stringifyMembers (m :: rest)

end

/-! ## The static reset-key table -/

/-- The value attached to each secure reset key in `SECURE_RESET_KEYS`. -/
structure ResetKeyDescriptor where
  resetType : String
  creditsGranted : Int
  message : String
deriving DecidableEq, Repr

/-- The `SECURE_RESET_KEYS` object literal of the `/validate-reset-key`
handler, as an ordered association list of its own (string-keyed)
properties. -/
def SECURE_RESET_KEYS : List (String × ResetKeyDescriptor) :=
  [ ("ALETO_RESET_DEFAULT_2024",
      { resetType := "default"
        creditsGranted := 0
        message := "Credits reset to default (2 credits)" }),
    ("ALETO_RESET_ZERO_2024",
      { resetType := "zero"
        creditsGranted := 0
        message := "Credits reset to zero" }),
    ("DEV_RESET_CREDITS_2024",
      { resetType := "default"
        creditsGranted := 0
        message := "Development reset to default (2 credits)" }),
    ("ALETO_ADMIN_RESET_2024",
      { resetType := "default"
        creditsGranted := 0
        message := "Admin reset to default (2 credits)" }) ]

/-- Property names that every plain JavaScript object literal inherits from
`Object.prototype` in Node.js. A computed access `SECURE_RESET_KEYS[k]` with
`k` one of these names yields the inherited built-in (a function, or
`Object.prototype` itself for the `__proto__` accessor) — a truthy value
with no own enumerable properties, so spreading it adds no fields. -/
def objectPrototypeKeys : List String :=
  [ "constructor", "hasOwnProperty", "isPrototypeOf", "propertyIsEnumerable",
    "toLocaleString", "toString", "valueOf", "__proto__",
    "__defineGetter__", "__defineSetter__", "__lookupGetter__", "__lookupSetter__" ]

/-- Result of the JavaScript computed property access
`SECURE_RESET_KEYS[resetKey]`: an own property (a table descriptor), a
truthy built-in inherited from `Object.prototype`, or `undefined`. -/
inductive ResetKeyLookup where
  | ownDescriptor (d : ResetKeyDescriptor) : ResetKeyLookup
  | inheritedBuiltin : ResetKeyLookup
  | missing : ResetKeyLookup
deriving DecidableEq, Repr

/-- The computed property access `SECURE_RESET_KEYS[k]`: own string-keyed
properties first, then the `Object.prototype` chain. -/
def secureResetKeysAccess (k : String) : ResetKeyLookup :=
  match (SECURE_RESET_KEYS.find? (fun p => p.1 == k)).map (fun p => p.2) with
  | some d => .ownDescriptor d
  | none =>
    if objectPrototypeKeys.contains k then .inheritedBuiltin else .missing

/-! ## HTTP model -/

/-- An HTTP response as sent by a handler: status code plus JSON body.
`res.json(b)` is status `200` with body `b`; `res.status(s).json(b)` is
status `s` with body `b`. -/
structure HttpResponse where
  status : Nat
  body : Json

/-- An outbound `fetch` request as built by the proxy handlers. -/
structure FetchRequest where
  url : String
  method : String
  authorization : Option String
  contentType : Option String
  body : Option String

/-- Outcome of `await fetch(...)` followed by `await response.json()`:
either a status code with a parsed JSON body, or a thrown error (network
failure or malformed JSON) carrying `error.message`. -/
inductive FetchOutcome where
  | ok (status : Nat) (body : Json) : FetchOutcome
  | throws (msg : String) : FetchOutcome

/-- `response.ok` of the Fetch API: status in the inclusive range 200–299. -/
def respOk (status : Nat) : Bool :=
  decide (200 ≤ status ∧ status < 300)

/-- The spread `{success: true, ...SECURE_RESET_KEYS[resetKey]}` on a table
hit: the descriptor's own enumerable fields in insertion order. -/
def ResetKeyDescriptor.spreadFields (d : ResetKeyDescriptor) : List (String × Json) :=
  [ ("resetType", Json.str d.resetType),
    ("creditsGranted", Json.num d.creditsGranted),
    ("message", Json.str d.message) ]

/-- The `POST /validate-reset-key` handler. Destructures `resetKey` from the
request body; a missing or falsy value is rejected with 400; otherwise the
computed access `SECURE_RESET_KEYS[resetKey]` decides the branch: truthy
gives `res.json({success: true, ...SECURE_RESET_KEYS[resetKey]})` and
`undefined` gives `res.json({success: false, message: 'Invalid reset key'})`,
both HTTP 200. -/
def validateResetKey (reqBody : Json) : HttpResponse :=
  match reqBody.getField "resetKey" with
  | none =>
    ⟨400, Json.obj [("success", Json.bool false), ("message", Json.str "Reset key is required")]⟩
  | some v =>
    if v.jsTruthy = false then
      ⟨400, Json.obj [("success", Json.bool false), ("message", Json.str "Reset key is required")]⟩
    else
      match secureResetKeysAccess v.jsToString with
      | .ownDescriptor d =>
        ⟨200, Json.obj (("success", Json.bool true) :: d.spreadFields)⟩
      | .inheritedBuiltin =>
        ⟨200, Json.obj [("success", Json.bool true)]⟩
      | .missing =>
        ⟨200, Json.obj [("success", Json.bool false), ("message", Json.str "Invalid reset key")]⟩

/-! ## The Replicate proxy handlers -/

/-- Body of the HTTP 500 response sent when `process.env.REPLICATE_API_KEY`
is unset (or empty, which is equally falsy). -/
def configErrorBody : Json :=
  Json.obj [("error", Json.str "Server configuration error: REPLICATE_API_KEY environment variable not set")]

/-- Body of the HTTP 500 response sent from the `catch` block when the
outbound call throws; `msg` is `error.message`. -/
def proxyErrorBody (msg : String) : Json :=
  Json.obj [("error", Json.str "Proxy server error"), ("message", Json.str msg)]

/-- Whether the `POST /predictions` logging line
`console.log('Model:', req.body.version?.split(':')[0] || 'unknown')`
throws: optional chaining short-circuits when `version` is absent or
`null`, and `.split` exists on strings, but any other present value
(number, boolean, array, object) has no callable `split`, so the call
throws a `TypeError` that the handler's `catch` turns into HTTP 500 before
any outbound call. (The following line
`req.body.input?.image?.length || 0` cannot throw: every access in it is
optional-chained or a property read on a non-nullish value.) -/
def versionLogThrows (reqBody : Json) : Bool :=
  match reqBody.getField "version" with
  | none => false
  | some Json.null => false
  | some (Json.str _) => false
  | some _ => true

/-- The message of the `TypeError` thrown by the `version` logging line.
The exact wording belongs to the JavaScript engine, not to this program;
the model fixes one representative V8 text, and no theorem below depends
on it. -/
def versionSplitTypeErrorMsg : String :=
  "req.body.version?.split is not a function"

/-- The message of the `TypeError` thrown by
`console.log('✅ Prediction created:', result.id)` when the ok upstream
body parsed to JSON `null` (V8 wording; no theorem depends on the text). -/
def nullBodyIdTypeErrorMsg : String :=
  "Cannot read properties of null (reading 'id')"

/-- The message of the `TypeError` thrown by
`console.log('📊 Prediction status:', result.status)` when the ok upstream
body parsed to JSON `null` (V8 wording; no theorem depends on the text). -/
def nullBodyStatusTypeErrorMsg : String :=
  "Cannot read properties of null (reading 'status')"

/-- The outbound request built by the `POST /predictions` handler:
`fetch('https://api.replicate.com/v1/predictions', {method: 'POST',
headers: {Authorization: Token <key>, Content-Type: application/json},
body: JSON.stringify(req.body)})`. -/
def postPredictionsRequest (apiKey : String) (reqBody : Json) : FetchRequest :=
  { url := "https://api.replicate.com/v1/predictions"
    method := "POST"
    authorization := some ("Token " ++ apiKey)
    contentType := some "application/json"
    body := some (Json.stringify reqBody) }

/-- The outbound request built by the `GET /predictions/:id` handler:
`fetch('https://api.replicate.com/v1/predictions/<id>', {method: 'GET',
headers: {Authorization: Token <key>}})`. -/
def getPredictionRequest (apiKey : String) (predictionId : String) : FetchRequest :=
  { url := "https://api.replicate.com/v1/predictions/" ++ predictionId
    method := "GET"
    authorization := some ("Token " ++ apiKey)
    contentType := none
    body := none }

/-- The `POST /predictions` handler. `apiKey` is
`process.env.REPLICATE_API_KEY` (`none` when unset); `upstream` is the
oracle standing for `fetch` + `response.json()`. Besides the HTTP response,
the handler returns the list of outbound requests it issued, in order.
A falsy key short-circuits to HTTP 500 before any outbound call; next the
`version` logging line runs, and for a payload on which it throws the
`catch` answers HTTP 500 with the TypeError's message, still before any
outbound call; a non-ok upstream response is mirrored with
`res.status(response.status).json(result)` (the non-ok branch reads no
property of `result`, so it is safe for every parsed body); on the ok path
`result.id` is logged first, which throws for a JSON `null` body (→ catch,
HTTP 500), and otherwise `res.json(result)` re-sends the body with
HTTP 200; a thrown outbound call is caught and answered with HTTP 500. -/
def postPredictions (apiKey : Option String) (upstream : FetchRequest → FetchOutcome)
    (reqBody : Json) : HttpResponse × List FetchRequest :=
  match apiKey with
  | none => (⟨500, configErrorBody⟩, [])
  | some key =>
    if key = "" then (⟨500, configErrorBody⟩, [])
    else if versionLogThrows reqBody then
      (⟨500, proxyErrorBody versionSplitTypeErrorMsg⟩, [])
    else
      let freq := postPredictionsRequest key reqBody
      match upstream freq with
      | .ok status result =>
        if respOk status = false then (⟨status, result⟩, [freq])
        else if result.isNull then (⟨500, proxyErrorBody nullBodyIdTypeErrorMsg⟩, [freq])
        else (⟨200, result⟩, [freq])
      | .throws msg => (⟨500, proxyErrorBody msg⟩, [freq])

/-- The `GET /predictions/:id` handler; same credential check, upstream
mirroring and catch block as `postPredictions`, but the prediction id is
interpolated into the URL, no body is sent, and the handler's only
throwing property read is `result.status` on the ok path (its pre-fetch
logging touches only the path parameter, so nothing throws before the
outbound call). -/
def getPredictionById (apiKey : Option String) (upstream : FetchRequest → FetchOutcome)
    (predictionId : String) : HttpResponse × List FetchRequest :=
  match apiKey with
  | none => (⟨500, configErrorBody⟩, [])
  | some key =>
    if key = "" then (⟨500, configErrorBody⟩, [])
    else
      let freq := getPredictionRequest key predictionId
      match upstream freq with
      | .ok status result =>
        if respOk status = false then (⟨status, result⟩, [freq])
        else if result.isNull then (⟨500, proxyErrorBody nullBodyStatusTypeErrorMsg⟩, [freq])
        else (⟨200, result⟩, [freq])
      | .throws msg => (⟨500, proxyErrorBody msg⟩, [freq])

/-! ## Routing -/

/-- HTTP methods reaching the Express router (the `cors` middleware answers
`OPTIONS` preflights itself, before routing). -/
inductive Method where
  | GET : Method
  | POST : Method
  | PUT : Method
  | DELETE : Method
deriving DecidableEq, Repr

/-- An incoming request: method, URL path split into its non-empty segments
(`[]` is `/`, `["predictions", "abc"]` is `/predictions/abc`), and the JSON
body produced by `express.json()`. -/
structure Request where
  method : Method
  path : List String
  body : Json

/-- Process environment of the server: the single configuration value the
handlers read, `REPLICATE_API_KEY` (`none` when the variable is unset). -/
structure Env where
  REPLICATE_API_KEY : Option String

/-- Which registered Express route a request matches, in registration
order: `GET /`, `POST /predictions`, `GET /predictions/:id` (one non-empty
path parameter), `POST /validate-reset-key`, otherwise the `app.use('*')`
catch-all. -/
inductive Route where
  | health : Route
  | createPrediction : Route
  | getPrediction (id : String) : Route
  | validateReset : Route
  | noMatch : Route
deriving DecidableEq, Repr

/-- Express route matching for the four registered routes. -/
def matchRoute : Method → List String → Route
  | .GET, [] => .health
  | .POST, ["predictions"] => .createPrediction
  | .GET, ["predictions", id] => .getPrediction id
  | .POST, ["validate-reset-key"] => .validateReset
  | _, _ => .noMatch

/-- Body of the `GET /` health-check response. -/
def healthBody : Json :=
  Json.obj
    [ ("status", Json.str "ok"),
      ("message", Json.str "Figma AI Rotation Proxy Server"),
      ("endpoints", Json.obj
        [ ("POST /predictions", Json.str "Create AI rotation prediction"),
          ("GET /predictions/:id", Json.str "Get prediction status/result"),
          ("POST /validate-reset-key", Json.str "Validate secure reset keys for Aleto plugin") ]),
      ("usage", Json.str "API key managed server-side via environment variable") ]

/-- Body of the `app.use('*')` catch-all 404 response. -/
def notFoundBody : Json :=
  Json.obj
    [ ("error", Json.str "Route not found"),
      ("availableRoutes", Json.arr
        [ Json.str "GET /",
          Json.str "POST /predictions",
          Json.str "GET /predictions/:id",
          Json.str "POST /validate-reset-key" ]) ]

/-- One request-response cycle of the server: route the request and run the
matched handler. Returns the HTTP response together with the list of
outbound calls the cycle performed. -/
def serverHandle (env : Env) (upstream : FetchRequest → FetchOutcome) (req : Request) :
    HttpResponse × List FetchRequest :=
  match matchRoute req.method req.path with
  | .health => (⟨200, healthBody⟩, [])
  | .createPrediction => postPredictions env.REPLICATE_API_KEY upstream req.body
  | .getPrediction id => getPredictionById env.REPLICATE_API_KEY upstream id
  | .validateReset => (validateResetKey req.body, [])
  | .noMatch => (⟨404, notFoundBody⟩, [])

/-- An upstream oracle for request cycles that must not reach the network;
any call to it is distinguishable in the outbound-call list. -/
def unusedUpstream : FetchRequest → FetchOutcome :=
  fun _ => FetchOutcome.throws "unreachable"

/-- A concrete always-succeeding upstream oracle. -/
def okUpstream : FetchRequest → FetchOutcome :=
  fun _ => FetchOutcome.ok 200 Json.null

/-- C1: the claim fails on the code and the code contradicts the intended
exact string-key lookup. The string `"toString"` is not a key of
`SECURE_RESET_KEYS`, yet `POST /validate-reset-key` with
`resetKey = "toString"` answers HTTP 200 with body `{success: true}` —
the computed access `SECURE_RESET_KEYS['toString']` finds the truthy
`Object.prototype.toString` built-in on the prototype chain and takes the
success branch — instead of the claimed
`{success: false, message: "Invalid reset key"}`. -/
theorem validate_reset_key_prototype_leak :
    (∀ p ∈ SECURE_RESET_KEYS, p.1 ≠ "toString")
    ∧ serverHandle ⟨none⟩ unusedUpstream
        ⟨Method.POST, ["validate-reset-key"], Json.obj [("resetKey", Json.str "toString")]⟩
        = (⟨200, Json.obj [("success", Json.bool true)]⟩, [])
    ∧ (Json.obj [("success", Json.bool true)]).getField "success" = some (Json.bool true) :=
  ⟨by decide, rfl, rfl⟩

/-- C2: with `REPLICATE_API_KEY` unset, both proxy endpoints answer
HTTP 500 with the configuration-error body and issue no outbound call. -/
theorem predictions_require_api_key (upstream : FetchRequest → FetchOutcome)
    (reqBody : Json) (predictionId : String) (env : Env)
    (h : env.REPLICATE_API_KEY = none) :
    serverHandle env upstream ⟨Method.POST, ["predictions"], reqBody⟩
      = (⟨500, configErrorBody⟩, [])
    ∧ serverHandle env upstream ⟨Method.GET, ["predictions", predictionId], reqBody⟩
      = (⟨500, configErrorBody⟩, []) := by
  have h1 : serverHandle env upstream ⟨Method.POST, ["predictions"], reqBody⟩
      = postPredictions env.REPLICATE_API_KEY upstream reqBody := rfl
  have h2 : serverHandle env upstream ⟨Method.GET, ["predictions", predictionId], reqBody⟩
      = getPredictionById env.REPLICATE_API_KEY upstream predictionId := rfl
  rw [h1, h2, h]
  exact ⟨rfl, rfl⟩

/-- C2 witness: the unset-credential environment at concrete requests. -/
theorem predictions_require_api_key_witness :
    serverHandle ⟨none⟩ okUpstream ⟨Method.POST, ["predictions"], Json.null⟩
      = (⟨500, configErrorBody⟩, [])
    ∧ serverHandle ⟨none⟩ okUpstream ⟨Method.GET, ["predictions", "p1"], Json.null⟩
      = (⟨500, configErrorBody⟩, []) :=
  predictions_require_api_key okUpstream Json.null "p1" ⟨none⟩ rfl

/-- C6: the exact key `"ALETO_RESET_DEFAULT_2024"` validates with
`success: true`, `resetType: "default"` and the default-reset message. -/
theorem aleto_default_key_valid :
    serverHandle ⟨none⟩ unusedUpstream
      ⟨Method.POST, ["validate-reset-key"],
        Json.obj [("resetKey", Json.str "ALETO_RESET_DEFAULT_2024")]⟩
      = (⟨200, Json.obj
          [ ("success", Json.bool true),
            ("resetType", Json.str "default"),
            ("creditsGranted", Json.num 0),
            ("message", Json.str "Credits reset to default (2 credits)") ]⟩, []) :=
  rfl

/-- C7: a missing or empty `resetKey` is answered with HTTP 400 and a
`success: false` body. -/
theorem missing_reset_key_400 (env : Env) (upstream : FetchRequest → FetchOutcome)
    (reqBody : Json)
    (h : reqBody.getField "resetKey" = none
       ∨ reqBody.getField "resetKey" = some (Json.str "")) :
    (serverHandle env upstream ⟨Method.POST, ["validate-reset-key"], reqBody⟩).1
      = ⟨400, Json.obj [("success", Json.bool false), ("message", Json.str "Reset key is required")]⟩ := by
  have hred : serverHandle env upstream ⟨Method.POST, ["validate-reset-key"], reqBody⟩
      = (validateResetKey reqBody, []) := rfl
  rw [hred]
  rcases h with h | h <;> simp [validateResetKey, h, Json.jsTruthy]

/-- C7 witness: an empty request body (no `resetKey` field). -/
theorem missing_reset_key_400_witness :
    (serverHandle ⟨none⟩ okUpstream ⟨Method.POST, ["validate-reset-key"], Json.obj []⟩).1
      = ⟨400, Json.obj [("success", Json.bool false), ("message", Json.str "Reset key is required")]⟩ :=
  missing_reset_key_400 ⟨none⟩ okUpstream (Json.obj []) (Or.inl rfl)

/-- C8: any request matching none of the four registered routes is answered
by the catch-all with HTTP 404 and the fixed route list. -/
theorem unmatched_routes_404 (env : Env) (upstream : FetchRequest → FetchOutcome)
    (req : Request) (h : matchRoute req.method req.path = Route.noMatch) :
    serverHandle env upstream req = (⟨404, notFoundBody⟩, [])
    ∧ notFoundBody.getField "availableRoutes"
        = some (Json.arr
            [ Json.str "GET /",
              Json.str "POST /predictions",
              Json.str "GET /predictions/:id",
              Json.str "POST /validate-reset-key" ]) := by
  refine ⟨?_, rfl⟩
  unfold serverHandle
  rw [h]

/-- C8 witness: `GET /unknown-path`. -/
theorem unmatched_routes_404_witness :
    serverHandle ⟨none⟩ okUpstream ⟨Method.GET, ["unknown-path"], Json.null⟩
      = (⟨404, notFoundBody⟩, [])
    ∧ notFoundBody.getField "availableRoutes"
        = some (Json.arr
            [ Json.str "GET /",
              Json.str "POST /predictions",
              Json.str "GET /predictions/:id",
              Json.str "POST /validate-reset-key" ]) :=
  unmatched_routes_404 ⟨none⟩ okUpstream ⟨Method.GET, ["unknown-path"], Json.null⟩ rfl

/-- C9: the `POST /validate-reset-key` response is a function of the
request body alone — the environment (in particular `REPLICATE_API_KEY`)
and the behaviour of the upstream service are irrelevant, and the cycle
performs no outbound call; the server keeps no state between requests, so
no other dependence exists. -/
theorem validate_reset_key_deterministic (env₁ env₂ : Env)
    (u₁ u₂ : FetchRequest → FetchOutcome) (b₁ b₂ : Json) (h : b₁ = b₂) :
    serverHandle env₁ u₁ ⟨Method.POST, ["validate-reset-key"], b₁⟩
      = serverHandle env₂ u₂ ⟨Method.POST, ["validate-reset-key"], b₂⟩ := by
  subst h
  rfl

/-- C9 witness: differing environments and upstream oracles, equal bodies. -/
theorem validate_reset_key_deterministic_witness :
    serverHandle ⟨none⟩ unusedUpstream
      ⟨Method.POST, ["validate-reset-key"], Json.obj [("resetKey", Json.str "x")]⟩
      = serverHandle ⟨some "configured-credential"⟩ okUpstream
          ⟨Method.POST, ["validate-reset-key"], Json.obj [("resetKey", Json.str "x")]⟩ :=
  validate_reset_key_deterministic ⟨none⟩ ⟨some "configured-credential"⟩
    unusedUpstream okUpstream
    (Json.obj [("resetKey", Json.str "x")]) (Json.obj [("resetKey", Json.str "x")]) rfl

/-- C10: every descriptor of the static table indeed has `resetType`
`"default"` or `"zero"` and `creditsGranted` 0, but the claimed consequence
fails on the code: `resetKey = "hasOwnProperty"` — not a table key — takes
the success branch through the inherited `Object.prototype` property, and
the resulting `success: true` body carries neither a `creditsGranted` nor a
`resetType` field. -/
theorem reset_table_invariant_and_prototype_escape :
    (∀ p ∈ SECURE_RESET_KEYS,
        (p.2.resetType = "default" ∨ p.2.resetType = "zero") ∧ p.2.creditsGranted = 0)
    ∧ (∀ p ∈ SECURE_RESET_KEYS, p.1 ≠ "hasOwnProperty")
    ∧ (serverHandle ⟨none⟩ unusedUpstream
        ⟨Method.POST, ["validate-reset-key"], Json.obj [("resetKey", Json.str "hasOwnProperty")]⟩).1
        = ⟨200, Json.obj [("success", Json.bool true)]⟩
    ∧ (Json.obj [("success", Json.bool true)]).getField "creditsGranted" = none
    ∧ (Json.obj [("success", Json.bool true)]).getField "resetType" = none :=
  ⟨by decide, by decide, rfl, rfl, rfl⟩
